import Mathlib

/-!
Verification of `overlap.py` (lung-segmentation repository).

This file shallowly embeds the arithmetic and dataflow logic of the script:
the SUV/ACT scale-factor computation (`calc_factor`, lines 33-63), the PET
loader's factor/provenance selection (`from_dicom_pet`, lines 66-98), min-max
normalization (`norm`, lines 262-263), the TIFF mask union
(`get_tiff_masks_as_numpy`, lines 310-315), the registration dataflow
(`get_reg_numpy_B2A`, lines 266-307) and the batch assembly
(`generate_data`, lines 318-337).

Python floats are idealized as real numbers (for formulas involving `exp`
and `log`) or as rationals (for the exact array arithmetic of masks and
batches).  DICOM I/O, SimpleITK loading/resampling and TIFF reading are
external library services; they are modelled as opaque function parameters
or, for the registration dataflow, as a symbolic image-expression type.
-/

namespace Overlap

/-- Time of day as parsed by `datetime.strptime(s, '%H%M%S.%f')`
(source lines 44-45): hour, minute, second and microsecond fields. -/
structure TimeOfDay where
  hour : ℕ
  minute : ℕ
  second : ℕ
  microsecond : ℕ
deriving DecidableEq, Repr

/-- Microseconds since midnight of a parsed time. -/
def TimeOfDay.toMicroseconds (t : TimeOfDay) : ℕ :=
  ((t.hour * 60 + t.minute) * 60 + t.second) * 1000000 + t.microsecond

/-- Embeds `(scan_time - injection_time).seconds` (source line 50).
Python's `timedelta` normalizes so that the `seconds` attribute is the
whole-second part of the difference reduced modulo one day, always in
`[0, 86399]`. -/
def deltaSeconds (scan_time injection_time : TimeOfDay) : ℤ :=
  ((scan_time.toMicroseconds : ℤ) - (injection_time.toMicroseconds : ℤ)) % 86400000000
    / 1000000

/-- Header fields of the representative DICOM slice read by `calc_factor`
(source lines 38-47).  Each field is `none` when the attribute is absent or
its string fails to parse (`float(...)` or `strptime` raises), in which case
the corresponding `except` branch of the source fires; a missing
`RadiopharmaceuticalInformationSequence[0]` element likewise renders the
three sequence fields `none`. -/
structure Df where
  patientWeight : Option ℝ
  acquisitionTime : Option TimeOfDay
  radiopharmStartTime : Option TimeOfDay
  radionuclideHalfLife : Option ℝ
  radionuclideTotalDose : Option ℝ

/-- The fallback decay factor `np.exp(-np.log(2) * (1.75 * 3600) / 6588)`
(source line 56): 90 min waiting time plus 15 min preparation, F-18 half
life. -/
noncomputable def fallback_a : ℝ := Real.exp (-Real.log 2 * (1.75 * 3600) / 6588)

/-- The decay block of `calc_factor` (source lines 43-57): the pair
`(a, injected_dose_decay)`.  The `try` branch succeeds exactly when all four
radiopharmaceutical fields are present and parsable and the half life is
nonzero; a zero half life raises `ZeroDivisionError` at line 50, and any
raised exception is caught by the bare `except`, which substitutes the
average-value constants of lines 56-57. -/
noncomputable def decayPair (df : Df) : ℝ × ℝ :=
  match df.acquisitionTime, df.radiopharmStartTime, df.radionuclideHalfLife,
      df.radionuclideTotalDose with
  | some scan_time, some injection_time, some half_life, some injected_dose =>
    if half_life = 0 then (fallback_a, 420000000 * fallback_a)
    else
      let a := Real.exp (-Real.log 2 *
        ((deltaSeconds scan_time injection_time : ℝ) / half_life))
      (a, a * injected_dose)
  | _, _, _, _ => (fallback_a, 420000000 * fallback_a)

/-- Weight in grams (source lines 38-42): `float(df.PatientWeight) * 1000`,
or 75000 when the field is absent or unparsable. -/
noncomputable def weightOf (df : Df) : ℝ :=
  match df.patientWeight with
  | some w => w * 1000
  | none => 75000

/-- Embeds `calc_factor` (source lines 33-63).  The division
`weight/injected_dose_decay` at line 59 is outside any `try`, so a zero
decayed dose raises `ZeroDivisionError` out of the function; this is
modelled by returning `none`.  Any type string other than `"SUV"` takes the
`else` branch returning `1/a`, exactly as the source's
`if type == "SUV"`. -/
noncomputable def calc_factor (df : Df) (t : String) : Option ℝ :=
  if (decayPair df).2 = 0 then none
  else some (if t = "SUV" then weightOf df / (decayPair df).2
             else 1 / (decayPair df).1)

/-- The representative DICOM slice as read by `from_dicom_pet` (source
lines 80-91): the two vendor private tags `70531000` (SUV) and `70531009`
(ACT), each `none` when the tag or its `Value` entry is absent from the
JSON dictionary, plus the header fields consumed by `calc_factor`. -/
structure Dicom where
  suvTag : Option ℝ
  actTag : Option ℝ
  df : Df

/-- The private tag consulted by `from_dicom_pet` for a given type string
(source lines 84-87). -/
def tagFor (d : Dicom) (t : String) : Option ℝ :=
  if t = "SUV" then d.suvTag else d.actTag

/-- The factor/provenance part of `from_dicom_pet` (source lines 82-91):
the returned `(factor, calc)` pair.  `calc` is initialized `False` at line
82 and set `True` only in the `except` branch where `calc_factor` is
invoked; when `calc_factor` raises (zero decayed dose) the loader itself
raises, modelled by `none`. -/
noncomputable def from_dicom_pet_factor (d : Dicom) (t : String) :
    Option (ℝ × Bool) :=
  match tagFor d t with
  | some factor => some (factor, false)
  | none => (calc_factor d.df t).map (fun factor => (factor, true))

/-- Symbolic SimpleITK image expressions, recording the dataflow of the
registration pipeline.  The actual pixel data, loading and resampling are
delegated by the source to SimpleITK (`read_image`, `sitk.Cast`/`sitk.Abs`,
`sitk.Resample`, `sitk.GetArrayFromImage`) and are opaque here; only the
structure of the computation is tracked. -/
inductive Img where
  /-- `read_image(path)` followed by `sitk.Cast(..., sitkFloat32)`. -/
  | raw : String → Img
  /-- `sitk.Abs(img * factor)` (source line 95). -/
  | absScale : Img → ℝ → Img
  /-- `sitk.Resample(moving, fixed)` (source line 184): resamples the first
  image onto the grid of the second. -/
  | resampleOnto : Img → Img → Img
  /-- `sitk.GetArrayFromImage(img)` (source lines 298-300). -/
  | arr : Img → Img
  /-- `norm(array)` applied when `normalize` is true (source line 303). -/
  | normed : Img → Img

/-- Whether a resample operation occurs anywhere inside an image
expression. -/
def containsResample : Img → Bool
  | Img.raw _ => false
  | Img.absScale i _ => containsResample i
  | Img.resampleOnto _ _ => true
  | Img.arr i => containsResample i
  | Img.normed i => containsResample i

/-- The image-expression part of `from_dicom_pet` (source lines 79-98),
given the filesystem's header content `fs` for each series directory:
returns the scaled image expression together with the factor and the
`calc` flag. -/
noncomputable def from_dicom_pet_img (fs : String → Dicom) (path : String)
    (t : String) : Option (Img × ℝ × Bool) :=
  (from_dicom_pet_factor (fs path) t).map
    (fun fc => (Img.absScale (Img.raw path) fc.1, fc.1, fc.2))

/-- Embeds `get_reg_numpy_B2A` (source lines 266-307): loads `path_A` and
`path_B` both through `from_dicom_pet` (with the default type `"SUV"`),
wraps the B image in a `PET` warper and resamples it onto the A image
(`B_warper.resample_pet(img_A)`, line 296), converts both to numpy arrays
and optionally normalizes them. -/
noncomputable def get_reg_numpy_B2A (fs : String → Dicom)
    (path_A path_B : String) (normalize : Bool) : Option (Img × Img) :=
  match from_dicom_pet_img fs path_A "SUV", from_dicom_pet_img fs path_B "SUV" with
  | some (img_A, _), some (img_B, _) =>
    let resampled := Img.resampleOnto img_B img_A
    let A := Img.arr img_A
    let B := Img.arr resampled
    if normalize then some (Img.normed A, Img.normed B) else some (A, B)
  | _, _ => none

/-- Minimum of a numeric array, `np.min(x)` over the flattened values.
`np.min` of an empty array raises; the empty case here is an arbitrary
default never relied upon. -/
def listMin : List ℚ → ℚ
  | [] => 0
  | x :: xs => xs.foldl min x

/-- Maximum of a numeric array, `np.max(x)` over the flattened values. -/
def listMax : List ℚ → ℚ
  | [] => 0
  | x :: xs => xs.foldl max x

/-- Embeds `norm` (source lines 262-263):
`(x - np.min(x)) / (np.max(x) - np.min(x))`, elementwise over the array's
values. -/
def norm (x : List ℚ) : List ℚ :=
  x.map (fun v => (v - listMin x) / (listMax x - listMin x))

/-- A 3-D numpy array of voxel values, indexed `[slice][row][column]`. -/
abbrev Vol := List (List (List ℚ))

/-- A 4-D numpy array. -/
abbrev Vol4 := List (List (List (List ℚ)))

/-- Elementwise addition of two 3-D arrays, `mask += arr` (source
line 313).  Numpy requires equal shapes; on equal shapes this zipWith
agrees with numpy addition. -/
def volAdd (a b : Vol) : Vol :=
  List.zipWith (List.zipWith (List.zipWith (· + ·))) a b

/-- `np.flip(arr, 0)` (source line 313): reverse along the first axis. -/
def volFlip (v : Vol) : Vol := v.reverse

/-- `np.where(mask > epsilon, 1, 0)` (source line 314). -/
def volWhereGt (v : Vol) (epsilon : ℚ) : Vol :=
  v.map (List.map (List.map (fun t => if epsilon < t then (1 : ℚ) else 0)))

/-- `np.zeros(mask_shape)` (source line 311) for a 3-D shape. -/
def volZeros (s : ℕ × ℕ × ℕ) : Vol :=
  List.replicate s.1 (List.replicate s.2.1 (List.replicate s.2.2 0))

/-- Embeds `get_tiff_masks_as_numpy` (source lines 310-315), with the TIFF
reader `io.imread` as an opaque parameter: starts from zeros, accumulates
each flipped mask image, then thresholds against `epsilon`. -/
def get_tiff_masks_as_numpy (imread : String → Vol) (paths : List String)
    (mask_shape : ℕ × ℕ × ℕ) (epsilon : ℚ) : Vol :=
  volWhereGt
    (paths.foldl (fun mask path => volAdd mask (volFlip (imread path)))
      (volZeros mask_shape))
    epsilon

/-- A patient record, a 5-entry row of `patient_table` (source lines
323-327): `patient[0]` CT series path, `patient[1]` PET series path,
`patient[2..4]` the three mask base names. -/
structure Patient where
  ct : String
  pet : String
  maskL : String
  maskN : String
  maskR : String

/-- Embeds `np.moveaxis(np.array([PET, CT, mask]), 0, 1)` (source lines
333 and 335): the stacked `[3, Z, Y, X]` array with its leading axis moved
to position 1, i.e. the `[Z, 3, Y, X]` array whose slice `z` is
`[PET[z], CT[z], mask[z]]`. -/
def stack3 {α : Type} : List α → List α → List α → List (List α)
  | p :: ps, c :: cs, m :: ms => [p, c, m] :: stack3 ps cs ms
  | _, _, _ => []

/-- `arr.shape` of a 3-D array (rectangular in numpy). -/
def shape3 (v : Vol) : ℕ × ℕ × ℕ :=
  (v.length, (v.headD []).length, ((v.headD []).headD []).length)

/-- `arr.shape` of a 4-D array, as a list of dimensions. -/
def shape4 (v : Vol4) : List ℕ :=
  [v.length, (v.headD []).length, ((v.headD []).headD []).length,
    (((v.headD []).headD []).headD []).length]

/-- Embeds `generate_data` (source lines 318-337).  The registration step
`get_reg_numpy_B2A(path_pet, path_ct)` delegates DICOM loading and
resampling to SimpleITK, so it is passed as the opaque parameter `reg`
returning the pair of numpy arrays `(PET, CT)`; `imread` is the opaque
TIFF reader.  Each patient contributes
`np.moveaxis(np.array([PET, CT, mask]), 0, 1)`, concatenated along axis 0;
the first iteration initializes `data` (the `np.__name__` check at line
332 distinguishes the initial `None`). -/
def generate_data (reg : String → String → Vol × Vol)
    (imread : String → Vol) (root_path : String)
    (patient_table : List Patient) : Option Vol4 :=
  patient_table.foldl (fun data patient =>
    let path_ct := root_path ++ patient.ct
    let path_pet := root_path ++ patient.pet
    let mask_L_lung := root_path ++ patient.maskL ++ ".tif"
    let mask_N_lung := root_path ++ patient.maskN ++ ".tif"
    let mask_R_lung := root_path ++ patient.maskR ++ ".tif"
    let PC := reg path_pet path_ct
    let mask := get_tiff_masks_as_numpy imread
      [mask_L_lung, mask_N_lung, mask_R_lung] (shape3 PC.1) (1/2)
    let block := stack3 PC.1 PC.2 mask
    match data with
    | none => some block
    | some d => some (d ++ block)) none

/-! ### Helper lemmas about the decay block -/

theorem fallback_a_pos : 0 < fallback_a := Real.exp_pos _

theorem decayPair_of_none (df : Df)
    (h : df.acquisitionTime = none ∨ df.radiopharmStartTime = none ∨
      df.radionuclideHalfLife = none ∨ df.radionuclideTotalDose = none) :
    decayPair df = (fallback_a, 420000000 * fallback_a) := by
  obtain ⟨pw, aq, rs, hl, td⟩ := df
  cases aq <;> cases rs <;> cases hl <;> cases td <;> try rfl
  rcases h with h | h | h | h <;> exact Option.noConfusion h

theorem decayPair_of_hl_zero (df : Df)
    (h : df.radionuclideHalfLife = some 0) :
    decayPair df = (fallback_a, 420000000 * fallback_a) := by
  obtain ⟨pw, aq, rs, hl, td⟩ := df
  cases aq <;> cases rs <;> cases td <;> cases hl <;> try rfl
  have h0 := Option.some.inj h
  subst h0
  simp [decayPair]

theorem decayPair_of_some (df : Df) (st it : TimeOfDay) (hl d : ℝ)
    (hst : df.acquisitionTime = some st)
    (hit : df.radiopharmStartTime = some it)
    (hhl : df.radionuclideHalfLife = some hl)
    (hd : df.radionuclideTotalDose = some d)
    (hne : hl ≠ 0) :
    decayPair df =
      (Real.exp (-Real.log 2 * ((deltaSeconds st it : ℝ) / hl)),
       Real.exp (-Real.log 2 * ((deltaSeconds st it : ℝ) / hl)) * d) := by
  unfold decayPair
  rw [hst, hit, hhl, hd]
  simp [hne]

theorem decayPair_fst_pos (df : Df) : 0 < (decayPair df).1 := by
  obtain ⟨pw, aq, rs, hl, td⟩ := df
  cases aq <;> cases rs <;> cases hl <;> cases td <;>
    first
      | exact fallback_a_pos
      | (dsimp only [decayPair]; split
         · exact fallback_a_pos
         · exact Real.exp_pos _)

theorem decayPair_snd_pos (df : Df)
    (hdose : ∀ x : ℝ, df.radionuclideTotalDose = some x → 0 < x) :
    0 < (decayPair df).2 := by
  obtain ⟨pw, aq, rs, hl, td⟩ := df
  cases aq <;> cases rs <;> cases hl <;> cases td <;>
    first
      | exact mul_pos (by norm_num) fallback_a_pos
      | (dsimp only [decayPair]; split
         · exact mul_pos (by norm_num) fallback_a_pos
         · exact mul_pos (Real.exp_pos _) (hdose _ rfl))

theorem weightOf_pos (df : Df)
    (hwt : ∀ w : ℝ, df.patientWeight = some w → 0 < w) :
    0 < weightOf df := by
  unfold weightOf
  cases hpw : df.patientWeight with
  | none => norm_num
  | some w => exact mul_pos (hwt w hpw) (by norm_num)

theorem calc_factor_act (df : Df) :
    calc_factor df "ACT" =
      if (decayPair df).2 = 0 then none
      else some (1 / (decayPair df).1) := by
  unfold calc_factor
  split
  · rfl
  · rw [if_neg (by decide : ¬("ACT" = "SUV"))]

theorem calc_factor_pos (df : Df) (t : String) (r : ℝ)
    (h : calc_factor df t = some r)
    (hwt : ∀ w : ℝ, df.patientWeight = some w → 0 < w)
    (hdose : ∀ x : ℝ, df.radionuclideTotalDose = some x → 0 < x) :
    0 < r := by
  have hsnd := decayPair_snd_pos df hdose
  have hfst := decayPair_fst_pos df
  unfold calc_factor at h
  rw [if_neg hsnd.ne'] at h
  obtain rfl := Option.some.inj h
  split
  · exact div_pos (weightOf_pos df hwt) hsnd
  · exact one_div_pos.mpr hfst

/-! ### Concrete header fixtures -/

/-- A header set with every field present: weight 70 kg, scan at 11:00:00,
injection at 10:00:00, half life 6588 s, dose 420 MBq. -/
noncomputable def df_suv_ok : Df :=
  ⟨some 70, some ⟨11, 0, 0, 0⟩, some ⟨10, 0, 0, 0⟩, some 6588, some 420000000⟩

/-- Same header set but with a parsable `PatientWeight` of `0`. -/
noncomputable def df_zero_weight : Df :=
  ⟨some 0, some ⟨11, 0, 0, 0⟩, some ⟨10, 0, 0, 0⟩, some 6588, some 420000000⟩

/-- A header set with all timing fields present and scan time equal to the
injection time, so the measured decay factor is `exp 0 = 1`. -/
noncomputable def df_act_a : Df :=
  ⟨some 70, some ⟨10, 0, 0, 0⟩, some ⟨10, 0, 0, 0⟩, some 6588, some 420000000⟩

/-- The same header set with only `RadionuclideTotalDose` removed. -/
noncomputable def df_act_b : Df :=
  ⟨some 70, some ⟨10, 0, 0, 0⟩, some ⟨10, 0, 0, 0⟩, some 6588, none⟩

/-- A header set with every radiopharmaceutical field absent. -/
def df_all_none : Df := ⟨none, none, none, none, none⟩

/-! ### C3 -/

/-- Claim C3 is false as stated: a header set in which `PatientWeight` is present
and parsable as `0`, the times are parsable, and half-life and dose are
positive, makes the SUV-mode computation return `0`, which is not strictly
positive. -/
theorem suv_factor_zero_weight :
    calc_factor df_zero_weight "SUV" = some 0 ∧ ¬ (0 : ℝ) < 0 := by
  have hdp := decayPair_of_some df_zero_weight ⟨11, 0, 0, 0⟩ ⟨10, 0, 0, 0⟩
    6588 420000000 rfl rfl rfl rfl (by norm_num)
  have hidd : Real.exp (-Real.log 2 *
      ((deltaSeconds ⟨11, 0, 0, 0⟩ ⟨10, 0, 0, 0⟩ : ℝ) / 6588)) * 420000000 ≠ 0 :=
    (mul_pos (Real.exp_pos _) (by norm_num)).ne'
  refine ⟨?_, by norm_num⟩
  unfold calc_factor
  rw [hdp, if_neg hidd]
  simp [weightOf, df_zero_weight]

/-- Claim C3 (amended): for every header set in which `PatientWeight`,
`AcquisitionTime`, `RadiopharmaceuticalStartTime`, `RadionuclideHalfLife`
and `RadionuclideTotalDose` are all present and parsable, with positive
weight, half-life and dose, `calc_factor` in SUV mode returns
`weight_g / (a * injected_dose)` where
`a = exp(-ln2 * dt / half_life)` and `dt` is the elapsed-seconds value of
`scan_time - injection_time`, and this result is strictly positive. -/
theorem suv_factor_formula_pos (df : Df) (w hl d : ℝ) (st it : TimeOfDay)
    (hw : df.patientWeight = some w)
    (hst : df.acquisitionTime = some st)
    (hit : df.radiopharmStartTime = some it)
    (hhl : df.radionuclideHalfLife = some hl)
    (hd : df.radionuclideTotalDose = some d)
    (hwpos : 0 < w) (hhlpos : 0 < hl) (hdpos : 0 < d) :
    calc_factor df "SUV" =
      some (w * 1000 /
        (Real.exp (-Real.log 2 * ((deltaSeconds st it : ℝ) / hl)) * d)) ∧
    0 < w * 1000 /
        (Real.exp (-Real.log 2 * ((deltaSeconds st it : ℝ) / hl)) * d) := by
  have hdp := decayPair_of_some df st it hl d hst hit hhl hd hhlpos.ne'
  have hidd : Real.exp (-Real.log 2 * ((deltaSeconds st it : ℝ) / hl)) * d ≠ 0 :=
    (mul_pos (Real.exp_pos _) hdpos).ne'
  constructor
  · unfold calc_factor
    rw [hdp, if_neg hidd]
    simp [weightOf, hw]
  · exact div_pos (mul_pos hwpos (by norm_num))
      (mul_pos (Real.exp_pos _) hdpos)

theorem suv_factor_formula_pos_witness :
    calc_factor df_suv_ok "SUV" =
      some (70 * 1000 /
        (Real.exp (-Real.log 2 *
          ((deltaSeconds ⟨11, 0, 0, 0⟩ ⟨10, 0, 0, 0⟩ : ℝ) / 6588)) * 420000000)) ∧
    0 < (70 : ℝ) * 1000 /
        (Real.exp (-Real.log 2 *
          ((deltaSeconds ⟨11, 0, 0, 0⟩ ⟨10, 0, 0, 0⟩ : ℝ) / 6588)) * 420000000) :=
  suv_factor_formula_pos df_suv_ok 70 6588 420000000 ⟨11, 0, 0, 0⟩ ⟨10, 0, 0, 0⟩
    rfl rfl rfl rfl rfl (by norm_num) (by norm_num) (by norm_num)

/-! ### C7 -/

/-- Claim C7: whenever any of the four radiopharmaceutical fields is missing or
unparsable, the fallback decay factor equals `exp(-ln2 * (6300/6588))`
exactly (1.75 h times 3600 s/h over the 6588 s half life), and the decayed
dose equals `420000000` times that factor. -/
theorem fallback_decay_constants (df : Df)
    (h : df.acquisitionTime = none ∨ df.radiopharmStartTime = none ∨
      df.radionuclideHalfLife = none ∨ df.radionuclideTotalDose = none) :
    (decayPair df).1 = Real.exp (-Real.log 2 * (6300 / 6588)) ∧
    (decayPair df).2 = 420000000 * (decayPair df).1 := by
  rw [decayPair_of_none df h]
  refine ⟨?_, rfl⟩
  show fallback_a = _
  unfold fallback_a
  rw [show ((1.75 : ℝ) * 3600) = 6300 by norm_num, mul_div_assoc]

theorem fallback_decay_constants_witness :
    (decayPair df_all_none).1 = Real.exp (-Real.log 2 * (6300 / 6588)) ∧
    (decayPair df_all_none).2 = 420000000 * (decayPair df_all_none).1 :=
  fallback_decay_constants df_all_none (Or.inl rfl)

/-! ### C10 -/

/-- Claim C10: every exception raised in the decay-adjusted-dose block — a
missing or unparsable field (including a missing sequence element, all
modelled as `none`) or the `ZeroDivisionError` from a zero half life — is
caught, and the block produces exactly the average-value fallback pair
(decay factor from `dt = 6300` s over half life `6588` s, dose
`420000000` Bq); no error propagates out of the block. -/
theorem decay_block_fallback_total (df : Df)
    (h : df.acquisitionTime = none ∨ df.radiopharmStartTime = none ∨
      df.radionuclideHalfLife = none ∨ df.radionuclideTotalDose = none ∨
      df.radionuclideHalfLife = some 0) :
    decayPair df = (fallback_a, 420000000 * fallback_a) := by
  rcases h with h | h | h | h | h
  · exact decayPair_of_none df (Or.inl h)
  · exact decayPair_of_none df (Or.inr (Or.inl h))
  · exact decayPair_of_none df (Or.inr (Or.inr (Or.inl h)))
  · exact decayPair_of_none df (Or.inr (Or.inr (Or.inr h)))
  · exact decayPair_of_hl_zero df h

/-- A header set whose half life parses as `0`, triggering
`ZeroDivisionError` inside the `try` block. -/
noncomputable def df_zero_half_life : Df :=
  ⟨some 70, some ⟨11, 0, 0, 0⟩, some ⟨10, 0, 0, 0⟩, some 0, some 420000000⟩

theorem decay_block_fallback_total_witness :
    decayPair df_zero_half_life = (fallback_a, 420000000 * fallback_a) :=
  decay_block_fallback_total df_zero_half_life
    (Or.inr (Or.inr (Or.inr (Or.inr rfl))))

/-! ### C6 -/

theorem decayPair_snd_ne_zero (df : Df) (d : ℝ)
    (hdose : df.radionuclideTotalDose = some d) (hd : d ≠ 0) :
    (decayPair df).2 ≠ 0 := by
  obtain ⟨pw, aq, rs, hl, td⟩ := df
  obtain rfl : td = some d := hdose
  cases aq <;> cases rs <;> cases hl <;>
    first
      | exact (mul_pos (by norm_num) fallback_a_pos).ne'
      | (dsimp only [decayPair]; split
         · exact (mul_pos (by norm_num : (0 : ℝ) < 420000000) fallback_a_pos).ne'
         · exact mul_ne_zero (Real.exp_pos _).ne' hd)

/-- Claim C6 is false as stated: the ACT-mode result is not independent of the
injected dose.  Removing `RadionuclideTotalDose` from a header set (all
else equal) reroutes the decay block through the fallback constants and
changes the ACT-mode result from `1/exp 0 = 1` to
`1/exp(-ln2*6300/6588) > 1`. -/
theorem act_dose_dependence :
    calc_factor df_act_a "ACT" ≠ calc_factor df_act_b "ACT" := by
  have hdelta : ((deltaSeconds ⟨10, 0, 0, 0⟩ ⟨10, 0, 0, 0⟩ : ℤ) : ℝ) = 0 := by
    rw [show deltaSeconds ⟨10, 0, 0, 0⟩ ⟨10, 0, 0, 0⟩ = 0 from by decide]
    norm_num
  have hdpa := decayPair_of_some df_act_a ⟨10, 0, 0, 0⟩ ⟨10, 0, 0, 0⟩
    6588 420000000 rfl rfl rfl rfl (by norm_num)
  have ha1 : Real.exp (-Real.log 2 *
      ((deltaSeconds ⟨10, 0, 0, 0⟩ ⟨10, 0, 0, 0⟩ : ℝ) / 6588)) = 1 := by
    rw [hdelta]
    norm_num
  have hA : calc_factor df_act_a "ACT" = some 1 := by
    rw [calc_factor_act, hdpa]
    rw [ha1]
    norm_num
  have hdpb := decayPair_of_none df_act_b (Or.inr (Or.inr (Or.inr rfl)))
  have hB : calc_factor df_act_b "ACT" = some (1 / fallback_a) := by
    rw [calc_factor_act, hdpb]
    exact if_neg (mul_pos (by norm_num : (0 : ℝ) < 420000000) fallback_a_pos).ne'
  rw [hA, hB]
  intro h
  have h1 := Option.some.inj h
  have hfa : fallback_a < 1 := by
    unfold fallback_a
    rw [Real.exp_lt_one_iff]
    have hl2 : 0 < Real.log 2 := Real.log_pos (by norm_num)
    have : -Real.log 2 * (1.75 * 3600) < 0 :=
      mul_neg_of_neg_of_pos (neg_lt_zero.mpr hl2) (by norm_num)
    exact div_neg_of_neg_of_pos this (by norm_num)
  exact absurd h1.symm (ne_of_gt (one_lt_one_div fallback_a_pos hfa))

/-- Claim C6 (amended): for every header input, `calc_factor` in ACT mode
returns `1 / a` where `a` is the decay factor (whenever it returns at all,
and when the dose field is absent it always returns), and the result is
independent of the patient weight; replacing the injected dose by another
nonzero value also leaves the result unchanged, but removing the dose
field (or zeroing it) can change the result, because dose availability
selects between the measured and the fallback decay factor. -/
theorem act_mode_formula (df : Df) (w' : Option ℝ) (d d' : ℝ) :
    calc_factor { df with patientWeight := w' } "ACT" = calc_factor df "ACT" ∧
    (∀ r : ℝ, calc_factor df "ACT" = some r → r = 1 / (decayPair df).1) ∧
    (df.radionuclideTotalDose = none →
      calc_factor df "ACT" = some (1 / (decayPair df).1)) ∧
    (df.radionuclideTotalDose = some d → d ≠ 0 → d' ≠ 0 →
      calc_factor { df with radionuclideTotalDose := some d' } "ACT" =
        calc_factor df "ACT") := by
  refine ⟨?_, ?_, ?_, ?_⟩
  · have hdp : decayPair { df with patientWeight := w' } = decayPair df := by
      obtain ⟨pw, aq, rs, hl, td⟩ := df
      rfl
    rw [calc_factor_act, calc_factor_act, hdp]
  · intro r hr
    rw [calc_factor_act] at hr
    by_cases h0 : (decayPair df).2 = 0
    · rw [if_pos h0] at hr
      exact Option.noConfusion hr
    · rw [if_neg h0] at hr
      exact (Option.some.inj hr).symm
  · intro hnone
    have hdp := decayPair_of_none df (Or.inr (Or.inr (Or.inr hnone)))
    rw [calc_factor_act, hdp]
    exact if_neg (mul_pos (by norm_num : (0 : ℝ) < 420000000) fallback_a_pos).ne'
  · intro hdose hd hd'
    obtain ⟨pw, aq, rs, hl, td⟩ := df
    obtain rfl : td = some d := hdose
    rw [calc_factor_act, calc_factor_act]
    cases aq <;> cases rs <;> cases hl <;> try rfl
    rename_i st it hl
    by_cases hhl : hl = 0
    · dsimp only [decayPair]
      rw [if_pos hhl, if_pos hhl]
    · dsimp only [decayPair]
      rw [if_neg hhl, if_neg hhl]
      dsimp only
      rw [if_neg (mul_ne_zero (Real.exp_pos _).ne' hd'),
        if_neg (mul_ne_zero (Real.exp_pos _).ne' hd)]

theorem act_mode_formula_witness :
    calc_factor { df_suv_ok with patientWeight := some 80 } "ACT" =
      calc_factor df_suv_ok "ACT" ∧
    calc_factor df_act_b "ACT" = some (1 / (decayPair df_act_b).1) ∧
    calc_factor { df_suv_ok with radionuclideTotalDose := some 5 } "ACT" =
      calc_factor df_suv_ok "ACT" :=
  ⟨(act_mode_formula df_suv_ok (some 80) 420000000 5).1,
   (act_mode_formula df_act_b none 420000000 5).2.2.1 rfl,
   (act_mode_formula df_suv_ok (some 80) 420000000 5).2.2.2 rfl (by norm_num)
     (by norm_num)⟩

/-! ### C4 -/

/-- A DICOM slice whose vendor SUV private tag holds the value `-2`. -/
noncomputable def dicom_neg_tag : Dicom := ⟨some (-2), none, df_all_none⟩

/-- A DICOM slice whose vendor SUV private tag holds the value `5`. -/
noncomputable def dicom_pos_tag : Dicom := ⟨some 5, none, df_all_none⟩

/-- Claim C4 is false as stated: the vendor private tag is used verbatim, so a
DICOM slice whose tag holds `-2` makes the loader return the scale factor
`-2`, which is not strictly positive. -/
theorem factor_negative_tag :
    from_dicom_pet_factor dicom_neg_tag "SUV" = some (-2, false) ∧
    ¬ (0 : ℝ) < -2 := ⟨rfl, by norm_num⟩

/-- Claim C4 (amended): every scale factor produced by `from_dicom_pet` — from
the vendor private tag, the measured-header path or the fallback path — is
strictly positive, provided the numbers it is derived from are positive:
the tag value when the tag is read, the parsed patient weight when
present, and the parsed total dose when present. -/
theorem factor_pos_of_pos_inputs (d : Dicom) (t : String) (f : ℝ) (c : Bool)
    (h : from_dicom_pet_factor d t = some (f, c))
    (htag : ∀ v : ℝ, tagFor d t = some v → 0 < v)
    (hwt : ∀ w : ℝ, d.df.patientWeight = some w → 0 < w)
    (hdose : ∀ x : ℝ, d.df.radionuclideTotalDose = some x → 0 < x) :
    0 < f := by
  unfold from_dicom_pet_factor at h
  cases htf : tagFor d t with
  | some v =>
    rw [htf] at h
    obtain ⟨h1, -⟩ := Prod.mk.injEq .. ▸ Option.some.inj h
    exact h1 ▸ htag v htf
  | none =>
    rw [htf] at h
    rw [Option.map_eq_some'] at h
    obtain ⟨r, hr, heq⟩ := h
    obtain ⟨h1, -⟩ := Prod.mk.injEq .. ▸ heq
    exact h1 ▸ calc_factor_pos d.df t r hr hwt hdose

theorem factor_pos_of_pos_inputs_witness :
    from_dicom_pet_factor dicom_pos_tag "SUV" = some (5, false) ∧ (0 : ℝ) < 5 :=
  ⟨rfl,
    factor_pos_of_pos_inputs dicom_pos_tag "SUV" 5 false rfl
      (fun v hv => by rw [← Option.some.inj hv]; norm_num)
      (fun w hw => nomatch hw) (fun x hx => nomatch hx)⟩

/-! ### C5 -/

/-- Claim C5: the provenance flag `calc` returned by `from_dicom_pet` is `false`
exactly when the vendor private tag was read (the source initializes
`calc = False` and sets it `True` only in the `except` branch).  The
spec's `measured_vs_assumed` flag is its negation — "measured" when the
tag was read — so `measured_vs_assumed` is true exactly when the tag was
present; in particular it is false whenever a fallback constant fires
inside `calc_factor`, and also false when the tag is absent yet every
header field is present and parsable, matching the spec's step "otherwise
invoke ScaleFactorCalculator and mark `measured_vs_assumed = false`". -/
theorem calc_flag_iff_tag (d : Dicom) (t : String) (f : ℝ) (c : Bool)
    (h : from_dicom_pet_factor d t = some (f, c)) :
    (c = false ↔ (tagFor d t).isSome = true) := by
  unfold from_dicom_pet_factor at h
  cases htf : tagFor d t with
  | some v =>
    rw [htf] at h
    obtain ⟨-, h2⟩ := Prod.mk.injEq .. ▸ Option.some.inj h
    simp [← h2]
  | none =>
    rw [htf] at h
    rw [Option.map_eq_some'] at h
    obtain ⟨r, -, heq⟩ := h
    obtain ⟨-, h2⟩ := Prod.mk.injEq .. ▸ heq
    simp [← h2]

theorem calc_flag_iff_tag_witness :
    (false = false ↔ (tagFor dicom_pos_tag "SUV").isSome = true) :=
  calc_flag_iff_tag dicom_pos_tag "SUV" 5 false rfl

/-! ### C2 -/

/-- Claim C2: with the paths as `generate_data` passes them
(`get_reg_numpy_B2A(path_pet, path_ct)` at source line 329, where
`path_pet = root + patient[1]` and `path_ct = root + patient[0]`), the
pipeline loads the PET series as volume A through the PET loader (scale
factor `fP` applied), loads the CT series as volume B through the same PET
loader (scale factor `fC` applied), and resamples the CT-loaded-as-PET
volume onto the PET volume; the returned A is the normalized array of the
un-resampled PET volume (it contains no resample operation). -/
theorem reg_B2A_dataflow (fs : String → Dicom) (root : String) (p : Patient)
    (fP fC : ℝ) (cP cC : Bool)
    (hP : from_dicom_pet_factor (fs (root ++ p.pet)) "SUV" = some (fP, cP))
    (hC : from_dicom_pet_factor (fs (root ++ p.ct)) "SUV" = some (fC, cC)) :
    get_reg_numpy_B2A fs (root ++ p.pet) (root ++ p.ct) true =
      some (Img.normed (Img.arr (Img.absScale (Img.raw (root ++ p.pet)) fP)),
            Img.normed (Img.arr (Img.resampleOnto
              (Img.absScale (Img.raw (root ++ p.ct)) fC)
              (Img.absScale (Img.raw (root ++ p.pet)) fP)))) ∧
    containsResample
      (Img.normed (Img.arr (Img.absScale (Img.raw (root ++ p.pet)) fP))) =
      false := by
  constructor
  · unfold get_reg_numpy_B2A from_dicom_pet_img
    rw [hP, hC]
    rfl
  · rfl

/-- A filesystem on which every series directory carries a vendor SUV tag
of `5`. -/
noncomputable def fs_const : String → Dicom := fun _ => dicom_pos_tag

/-- A concrete patient record. -/
def patient0 : Patient := ⟨"ct_dir", "pet_dir", "l_lung", "n_lung", "r_lung"⟩

theorem reg_B2A_dataflow_witness :
    get_reg_numpy_B2A fs_const ("root/" ++ patient0.pet) ("root/" ++ patient0.ct)
        true =
      some (Img.normed (Img.arr (Img.absScale (Img.raw ("root/" ++ patient0.pet)) 5)),
            Img.normed (Img.arr (Img.resampleOnto
              (Img.absScale (Img.raw ("root/" ++ patient0.ct)) 5)
              (Img.absScale (Img.raw ("root/" ++ patient0.pet)) 5)))) ∧
    containsResample
      (Img.normed (Img.arr (Img.absScale (Img.raw ("root/" ++ patient0.pet)) 5))) =
      false :=
  reg_B2A_dataflow fs_const "root/" patient0 5 5 false false rfl rfl

/-! ### C8 -/

theorem foldl_map_min (f : ℚ → ℚ) (hf : ∀ a b, f (min a b) = min (f a) (f b)) :
    ∀ (l : List ℚ) (x : ℚ), (l.map f).foldl min (f x) = f (l.foldl min x) := by
  intro l
  induction l with
  | nil => intro x; rfl
  | cons a l ih =>
    intro x
    rw [List.map_cons, List.foldl_cons, List.foldl_cons, ← hf, ih]

theorem foldl_map_max (f : ℚ → ℚ) (hf : ∀ a b, f (max a b) = max (f a) (f b)) :
    ∀ (l : List ℚ) (x : ℚ), (l.map f).foldl max (f x) = f (l.foldl max x) := by
  intro l
  induction l with
  | nil => intro x; rfl
  | cons a l ih =>
    intro x
    rw [List.map_cons, List.foldl_cons, List.foldl_cons, ← hf, ih]

theorem listMin_map_mono (f : ℚ → ℚ) (hf : Monotone f) (a : ℚ) (l : List ℚ) :
    listMin ((a :: l).map f) = f (listMin (a :: l)) := by
  rw [List.map_cons]
  show (l.map f).foldl min (f a) = f (l.foldl min a)
  exact foldl_map_min f (fun x y => hf.map_min) l a

theorem listMax_map_mono (f : ℚ → ℚ) (hf : Monotone f) (a : ℚ) (l : List ℚ) :
    listMax ((a :: l).map f) = f (listMax (a :: l)) := by
  rw [List.map_cons]
  show (l.map f).foldl max (f a) = f (l.foldl max a)
  exact foldl_map_max f (fun x y => hf.map_max) l a

theorem foldl_min_le_init (l : List ℚ) : ∀ x : ℚ, l.foldl min x ≤ x := by
  induction l with
  | nil => intro x; exact le_refl x
  | cons a l ih => intro x; exact le_trans (ih (min x a)) (min_le_left x a)

theorem init_le_foldl_max (l : List ℚ) : ∀ x : ℚ, x ≤ l.foldl max x := by
  induction l with
  | nil => intro x; exact le_refl x
  | cons a l ih => intro x; exact le_trans (le_max_left x a) (ih (max x a))

theorem listMin_le_listMax (a : ℚ) (l : List ℚ) :
    listMin (a :: l) ≤ listMax (a :: l) :=
  le_trans (foldl_min_le_init l a) (init_le_foldl_max l a)

/-- Claim C8: for a nonempty, non-constant array, `norm` maps the minimum to
exactly `0` and the maximum to exactly `1`, and `norm` is idempotent on
its own output (exact rational arithmetic idealizes the float
computation). -/
theorem norm_min_max_idem (x : List ℚ) (hne : x ≠ [])
    (hc : listMin x ≠ listMax x) :
    listMin (norm x) = 0 ∧ listMax (norm x) = 1 ∧ norm (norm x) = norm x := by
  obtain ⟨a, l, rfl⟩ : ∃ a l, x = a :: l := by
    cases x with
    | nil => exact absurd rfl hne
    | cons a l => exact ⟨a, l, rfl⟩
  have hmM : listMin (a :: l) < listMax (a :: l) :=
    lt_of_le_of_ne (listMin_le_listMax a l) hc
  have hpos : 0 < listMax (a :: l) - listMin (a :: l) := sub_pos.mpr hmM
  have hmono : Monotone (fun v : ℚ =>
      (v - listMin (a :: l)) / (listMax (a :: l) - listMin (a :: l))) := by
    intro u v huv
    exact (div_le_div_iff_of_pos_right hpos).mpr (sub_le_sub_right huv _)
  have hmin1 : listMin (norm (a :: l)) = 0 := by
    show listMin ((a :: l).map _) = 0
    rw [listMin_map_mono _ hmono]
    rw [sub_self, zero_div]
  have hmax1 : listMax (norm (a :: l)) = 1 := by
    show listMax ((a :: l).map _) = 1
    rw [listMax_map_mono _ hmono]
    exact div_self hpos.ne'
  refine ⟨hmin1, hmax1, ?_⟩
  show List.map (fun v : ℚ =>
      (v - listMin (norm (a :: l))) /
        (listMax (norm (a :: l)) - listMin (norm (a :: l)))) (norm (a :: l)) =
    norm (a :: l)
  rw [hmin1, hmax1]
  have hfun : (fun v : ℚ => (v - 0) / (1 - 0)) = fun v => v := by
    funext v
    norm_num
  rw [hfun, List.map_id']

theorem norm_min_max_idem_witness :
    listMin (norm [0, 2, 1]) = 0 ∧ listMax (norm [0, 2, 1]) = 1 ∧
    norm (norm [0, 2, 1]) = norm [0, 2, 1] :=
  norm_min_max_idem [0, 2, 1] (by decide) (by decide)

/-! ### C9 -/

theorem zipWith_comm_gen {α : Type} (f : α → α → α) (h : ∀ a b, f a b = f b a) :
    ∀ (l₁ l₂ : List α), List.zipWith f l₁ l₂ = List.zipWith f l₂ l₁
  | [], [] => rfl
  | [], _ :: _ => rfl
  | _ :: _, [] => rfl
  | a :: l₁, b :: l₂ => by
    rw [List.zipWith_cons_cons, List.zipWith_cons_cons, h,
      zipWith_comm_gen f h l₁ l₂]

theorem zipWith_assoc_gen {α : Type} (f : α → α → α)
    (h : ∀ a b c, f (f a b) c = f a (f b c)) :
    ∀ (l₁ l₂ l₃ : List α),
      List.zipWith f (List.zipWith f l₁ l₂) l₃ =
        List.zipWith f l₁ (List.zipWith f l₂ l₃)
  | [], _, _ => by simp
  | _ :: _, [], _ => by simp
  | _ :: _, _ :: _, [] => by simp
  | a :: l₁, b :: l₂, c :: l₃ => by
    rw [List.zipWith_cons_cons, List.zipWith_cons_cons, List.zipWith_cons_cons,
      List.zipWith_cons_cons, h, zipWith_assoc_gen f h l₁ l₂ l₃]

theorem volAdd_comm (a b : Vol) : volAdd a b = volAdd b a :=
  zipWith_comm_gen _ (fun x y => zipWith_comm_gen _ (fun u v =>
    zipWith_comm_gen _ (fun p q => add_comm p q) u v) x y) a b

theorem volAdd_assoc (a b c : Vol) :
    volAdd (volAdd a b) c = volAdd a (volAdd b c) :=
  zipWith_assoc_gen _ (fun x y z => zipWith_assoc_gen _ (fun u v w =>
    zipWith_assoc_gen _ (fun p q r => add_assoc p q r) u v w) x y z) a b c

theorem volAdd_right_comm (m a b : Vol) :
    volAdd (volAdd m a) b = volAdd (volAdd m b) a := by
  rw [volAdd_assoc, volAdd_assoc, volAdd_comm a b]

theorem foldl_perm {α β : Type} (f : β → α → β)
    (hrc : ∀ (b : β) (a₁ a₂ : α), f (f b a₁) a₂ = f (f b a₂) a₁) :
    ∀ {l₁ l₂ : List α}, l₁.Perm l₂ → ∀ b : β, l₁.foldl f b = l₂.foldl f b := by
  intro l₁ l₂ hp
  induction hp with
  | nil => intro b; rfl
  | cons x hp ih =>
    intro b
    rw [List.foldl_cons, List.foldl_cons]
    exact ih (f b x)
  | swap x y l =>
    intro b
    rw [List.foldl_cons, List.foldl_cons, List.foldl_cons, List.foldl_cons, hrc]
  | trans h₁ h₂ ih₁ ih₂ =>
    intro b
    rw [ih₁ b, ih₂ b]

/-- Claim C9: the mask assembler is order-independent — permuting the list of
mask paths yields a voxel-for-voxel identical output mask, for every TIFF
reader, shape and threshold (exact arithmetic; the summed masks commute). -/
theorem masks_perm_invariant (imread : String → Vol)
    (paths₁ paths₂ : List String) (mask_shape : ℕ × ℕ × ℕ) (epsilon : ℚ)
    (hperm : paths₁.Perm paths₂) :
    get_tiff_masks_as_numpy imread paths₁ mask_shape epsilon =
      get_tiff_masks_as_numpy imread paths₂ mask_shape epsilon := by
  unfold get_tiff_masks_as_numpy
  congr 1
  exact foldl_perm _
    (fun m p q => volAdd_right_comm m (volFlip (imread p)) (volFlip (imread q)))
    hperm _

/-- A 10 by 4 by 4 volume of zeros. -/
def vol1044 : Vol := List.replicate 10 (List.replicate 4 (List.replicate 4 0))

/-- A TIFF reader returning the same 10 by 4 by 4 volume for every path. -/
def imread0 : String → Vol := fun _ => vol1044

theorem masks_perm_invariant_witness :
    get_tiff_masks_as_numpy imread0 ["a", "b"] (10, 4, 4) (1/2) =
      get_tiff_masks_as_numpy imread0 ["b", "a"] (10, 4, 4) (1/2) :=
  masks_perm_invariant imread0 ["a", "b"] ["b", "a"] (10, 4, 4) (1/2)
    (List.Perm.swap "b" "a" [])

/-! ### C1 -/

theorem stack3_length {α : Type} :
    ∀ (a b c : List α),
      (stack3 a b c).length = min a.length (min b.length c.length)
  | [], b, c => by cases b <;> cases c <;> simp [stack3]
  | _ :: _, [], c => by cases c <;> simp [stack3]
  | _ :: _, _ :: _, [] => by simp [stack3]
  | _ :: as, _ :: bs, _ :: cs => by
    simp [stack3, stack3_length as bs cs, Nat.succ_min_succ]

/-- A registration step returning the all-zero 10 by 4 by 4 volume pair
for every path pair. -/
def reg0 : String → String → Vol × Vol := fun _ _ => (vol1044, vol1044)

/-- Claim C1 is false as stated: for a one-patient table whose loaded volumes
have dimensions Z=10, Y=4, X=4, the batch returned by `generate_data` has
shape `[10, 3, 4, 4]` — `np.moveaxis` on the stacked `[3, 10, 4, 4]` array
moves the channel axis to position 1, giving `[Z, 3, Y, X]`, not
`[1, 3, Z, Y, X]`. -/
theorem generate_data_shape_counterexample :
    (generate_data reg0 imread0 "" [patient0]).map shape4 = some [10, 3, 4, 4] ∧
    some [10, 3, 4, 4] ≠ some [1, 3, 10, 4, 4] := by
  refine ⟨rfl, by decide⟩

/-- Claim C1 (amended): for a one-patient table, stacking `[PET, CT, mask]`
along a new leading channel axis and moving that axis to position 1
produces a per-patient array of shape `[Z, 3, Y, X]`; in particular, for
volumes of dimensions Z=10, Y=4, X=4 the returned batch has shape
`[10, 3, 4, 4]`. -/
theorem generate_data_single_patient_shape
    (reg : String → String → Vol × Vol) (imread : String → Vol)
    (root : String) (p : Patient) (P C M : Vol) (Z Y X : ℕ)
    (hreg : reg (root ++ p.pet) (root ++ p.ct) = (P, C))
    (hM : get_tiff_masks_as_numpy imread
        [root ++ p.maskL ++ ".tif", root ++ p.maskN ++ ".tif",
          root ++ p.maskR ++ ".tif"] (shape3 P) (1/2) = M)
    (hZ : 0 < Z) (hP : shape3 P = (Z, Y, X))
    (hC : C.length = Z) (hMl : M.length = Z) :
    (generate_data reg imread root [p]).map shape4 = some [Z, 3, Y, X] := by
  have hgen : generate_data reg imread root [p] =
      some (stack3 (reg (root ++ p.pet) (root ++ p.ct)).1
        (reg (root ++ p.pet) (root ++ p.ct)).2
        (get_tiff_masks_as_numpy imread
          [root ++ p.maskL ++ ".tif", root ++ p.maskN ++ ".tif",
            root ++ p.maskR ++ ".tif"]
          (shape3 (reg (root ++ p.pet) (root ++ p.ct)).1) (1/2))) := rfl
  rw [hgen, hreg]
  dsimp only
  rw [hM]
  simp only [shape3, Prod.mk.injEq] at hP
  obtain ⟨hPl, hPy, hPx⟩ := hP
  cases P with
  | nil => simp at hPl; omega
  | cons p0 P' =>
    cases C with
    | nil => simp at hC; omega
    | cons c0 C' =>
      cases M with
      | nil => simp at hMl; omega
      | cons m0 M' =>
        simp only [List.length_cons] at hPl hC hMl
        show some (shape4 ([p0, c0, m0] :: stack3 P' C' M')) = _
        simp only [shape4, List.length_cons, List.headD_cons, stack3_length,
          Option.some.injEq]
        refine List.cons_eq_cons.mpr ⟨by omega, ?_⟩
        refine List.cons_eq_cons.mpr ⟨rfl, ?_⟩
        simp only [List.headD_cons] at hPy hPx
        refine List.cons_eq_cons.mpr ⟨hPy, ?_⟩
        exact List.cons_eq_cons.mpr ⟨hPx, rfl⟩

theorem generate_data_single_patient_shape_witness :
    (generate_data reg0 imread0 "" [patient0]).map shape4 =
      some [10, 3, 4, 4] :=
  generate_data_single_patient_shape reg0 imread0 "" patient0
    vol1044 vol1044
    (get_tiff_masks_as_numpy imread0
      ["" ++ patient0.maskL ++ ".tif", "" ++ patient0.maskN ++ ".tif",
        "" ++ patient0.maskR ++ ".tif"] (shape3 vol1044) (1/2))
    10 4 4 rfl rfl (by norm_num) rfl rfl rfl

end Overlap
